import Mathlib

/-!
Shallow embedding of the honopang utility library (bearer-token gate,
parameter extractor, error renderers, NocoDB race logger) and proofs of
the specified behavioural properties.

Each definition mirrors one function of the TypeScript source:
`common.ts` (StatusError), `createHandler.ts`
(createNextHandlerIfAuthorization), `contextResponse.ts`
(responseJsonError, responseHtmlError, parseParams) and `createHook.ts`
(createRaceLoggerOnNocoDB, sendRaceLog, clone).
-/

namespace Honopang

/-! ## common.ts : StatusError -/

/-- A StatusError value: a message paired with an HTTP status code. -/
structure StatusError where
  message : String
  status : Nat
deriving DecidableEq, Repr

/-- The fixed code-to-text table in the StatusError constructor
(the `switch (status)` block of common.ts). -/
def statusText (status : Nat) : String :=
  match status with
  | 400 => "Bad Request"
  | 401 => "Unauthorized"
  | 403 => "Forbidden"
  | 404 => "Not Found"
  | 409 => "Conflict"
  | 422 => "Unprocessable Entity"
  | 429 => "Too Many Requests"
  | 500 => "Internal Server Error"
  | 502 => "Bad Gateway"
  | 503 => "Service Unavailable"
  | _ => s!"HTTP {status} Error"

/-- The StatusError constructor: `constructor(message: string | number,
status = 500)`.  A numeric first argument overwrites the status and the
message is drawn from the code-to-text table. -/
def StatusError.make (message : String ⊕ Nat) (status : Nat) : StatusError :=
  match message with
  | .inl m => { message := m, status := status }
  | .inr code => { message := statusText code, status := code }

/-- Construction with the defaulted second argument (`status = 500`). -/
def StatusError.makeDefault (message : String ⊕ Nat) : StatusError :=
  StatusError.make message 500

/-! ## createHandler.ts : createNextHandlerIfAuthorization -/

/-- The possible behaviours of the caller-supplied async token validator:
it resolves to `true`, to `false`, to a `StatusError` instance, to some
other unexpected value, or it rejects (throws). -/
inductive ValidatorResult where
  | retTrue : ValidatorResult
  | retFalse : ValidatorResult
  | retError (e : StatusError) : ValidatorResult
  | retOther : ValidatorResult
  | throws (e : StatusError) : ValidatorResult
deriving DecidableEq, Repr

/-- Observable outcome of the gate handler for one request: either the
downstream continuation `next()` is invoked, or an error response with a
status code and message is produced (via `responseJsonError(c, error, false)`,
which renders `error.status` as the HTTP status and `error.message` as the
body message). -/
inductive GateOutcome where
  | callNext : GateOutcome
  | respond (status : Nat) (message : String) : GateOutcome
deriving DecidableEq, Repr

/-- JS truthiness test for the `Authorization` header:
`!authorization` is true when the header is absent or the empty string. -/
def headerFalsy : Option String → Bool
  | none => true
  | some s => s = ""

/-- JS `String.prototype.startsWith`. -/
def strStartsWith (s pat : String) : Bool :=
  pat.toList.isPrefixOf s.toList

/-- JS `String.prototype.substring(n)` (from character index `n` to the
end). -/
def strSubstringFrom (s : String) (n : Nat) : String :=
  String.mk (s.toList.drop n)

/-- The inner `try { ... } catch (e) { throw new StatusError("Internal Server
Error", 500) }` block around the validator call: every failure path inside it
is replaced by a 500 StatusError. -/
def validateStep (validate : String → ValidatorResult) (token : String) :
    Except StatusError GateOutcome :=
  let inner : Except StatusError GateOutcome :=
    match validate token with
    | .retTrue => .ok .callNext
    | .retFalse => .error (StatusError.make (.inl "Authorization format invaild") 401)
    | .retError e => .error e
    | .retOther =>
        .error (StatusError.make (.inl "Internal Server Error: Unexpected authorization process") 500)
    | .throws e => .error e
  match inner with
  | .ok a => .ok a
  | .error _ => .error (StatusError.make (.inl "Internal Server Error") 500)

/-- The body of the handler's outer `try` block: header checks, token
extraction, then the validator step. -/
def handlerBody (validate : String → ValidatorResult) (authorization : Option String) :
    Except StatusError GateOutcome :=
  if headerFalsy authorization then
    .error (StatusError.make (.inl "Authorization required") 403)
  else
    let a := authorization.getD ""
    if strStartsWith a "Bearer " then
      validateStep validate (strSubstringFrom a 7)
    else
      .error { message := "Authorization format invaild", status := 401 }

/-- Function `responseJsonError(c, error, false)` from the contextResponse module used
by createHandler.ts: the HTTP status is the error's `status` property and the
body carries the error's message. -/
def responseJsonErrorCtx (e : StatusError) : GateOutcome :=
  .respond e.status e.message

/-- The handler produced by `createNextHandlerIfAuthorization(validateToken)`:
the outer `catch (error) { return responseJsonError(c, error, false) }`
renders any thrown StatusError as a response. -/
def createNextHandlerIfAuthorization (validate : String → ValidatorResult)
    (authorization : Option String) : GateOutcome :=
  match handlerBody validate authorization with
  | .ok a => a
  | .error e => responseJsonErrorCtx e

/-! ## Shared JS value model -/

/-- A JS/JSON-like value as it appears in parsed parameter maps and JSON
bodies: `null`, strings, numbers, booleans, file handles, objects and
arrays.  Property absence (JS `undefined`) is modelled by absence of the
key from the association list, not by a value. -/
inductive JSValue where
  | null : JSValue
  | str (s : String) : JSValue
  | num (n : Int) : JSValue
  | bool (b : Bool) : JSValue
  | file (name : String) : JSValue
  | obj (fields : List (String × JSValue)) : JSValue
  | arr (items : List JSValue) : JSValue

/-- A parsed-parameter map: field names to values, in insertion order. -/
abbrev Params := List (String × JSValue)

/-- Look a field up in a parameter map (`params[field]`; `none` is JS
`undefined`). -/
def lookupField (params : Params) (field : String) : Option JSValue :=
  match params.find? (fun p => p.1 = field) with
  | some p => some p.2
  | none => none

/-- JS object spread merge `{...base, ...over}`: keys of `base` keep their
position (with `over`'s value when it also has the key), keys only in
`over` follow in `over`'s order. -/
def mergeParams (base over : Params) : Params :=
  base.map (fun p =>
    match lookupField over p.1 with
    | some v => (p.1, v)
    | none => p) ++
  over.filter (fun p => (lookupField base p.1).isNone)

/-- Substring containment, the JS `String.prototype.includes` used for
content-type dispatch. -/
def strIncludes (s pat : String) : Bool :=
  let sl := s.toList
  let pl := pat.toList
  (List.range (sl.length + 1)).any (fun i => pl.isPrefixOf (sl.drop i))

/-! ## contextResponse.ts : responseJsonError / responseHtmlError -/

/-- An arbitrary error-like JS value as seen by the error renderers: whether
it is a truthy object, whether it has a `status` property (and its value),
and whether it has a `message` property (and its value). -/
structure ErrorLike where
  isObject : Bool
  status : Option Int
  message : Option String
deriving DecidableEq, Repr

/-- The status-resolution expression shared by the renderers:
`(typeof error === 'object' && error && 'status' in error) ? error.status : 500`. -/
def resolveStatus (e : ErrorLike) : Int :=
  match e.isObject, e.status with
  | true, some s => s
  | _, _ => 500

/-- The default JSON error body `{ status, message }` (the `message` field is
JS `undefined` when the input has no message property). -/
structure DefaultJson where
  status : Int
  message : Option String
deriving DecidableEq, Repr

/-- The `JSON.stringify` view of the default body: a JSON object with the
`status` field, and the `message` field when defined (`JSON.stringify`
drops `undefined`-valued fields). -/
def jsValueOfDefaultJson (d : DefaultJson) : JSValue :=
  .obj ([("status", .num d.status)] ++
    (match d.message with
     | some m => [("message", .str m)]
     | none => []))

/-- A produced JSON response: HTTP status plus body value. -/
structure JsonResponse where
  status : Int
  body : JSValue

/-- Function `responseJsonError(error, transform?)` of contextResponse.ts: resolve the
status, build the default `{status, message}` body, apply the transform to it
when one is supplied, and send the result with the resolved status. -/
def responseJsonError (error : ErrorLike) (transform : Option (DefaultJson → JSValue)) :
    JsonResponse :=
  let status := resolveStatus error
  let defaultJson : DefaultJson := { status := status, message := error.message }
  let responseJson :=
    match transform with
    | some t => t defaultJson
    | none => jsValueOfDefaultJson defaultJson
  { status := status, body := responseJson }

/-- Interpolating an error's message into a template literal:
`${(error as any)?.message}` renders a missing message as "undefined". -/
def messageText (e : ErrorLike) : String :=
  match e.message with
  | some m => m
  | none => "undefined"

/-- A render failure thrown by a caller-supplied template component. -/
structure RenderError where
  message : String
deriving DecidableEq, Repr

/-- A caller-supplied HTML template: either a component function (which may
throw, or return a falsy element modelled by `none`, or an element rendering
to a string) or a literal HTML string. -/
inductive HtmlTemplate where
  | fc (render : ErrorLike → Except RenderError (Option String)) : HtmlTemplate
  | strT (s : String) : HtmlTemplate

/-- A produced HTML response: HTTP status, body, and whether a render
failure was logged to the diagnostic stream. -/
structure HtmlResponse where
  status : Int
  body : String
  loggedRenderFailure : Bool
deriving DecidableEq, Repr

/-- The fixed fallback template `` `<h1>Error</h1><p>${message}</p>` ``. -/
def fallbackHtml (e : ErrorLike) : String :=
  "<h1>Error</h1><p>" ++ messageText e ++ "</p>"

/-- Function `responseHtmlError(error, template?)` of contextResponse.ts: component
templates are invoked inside try/catch with fallback to the fixed template on
throw (or falsy element); string templates are sent verbatim; no template
uses the fixed fallback.  The resolved status is used in every branch. -/
def responseHtmlError (error : ErrorLike) (template : Option HtmlTemplate) :
    HtmlResponse :=
  let status := resolveStatus error
  match template with
  | some (.fc render) =>
      match render error with
      | .ok (some htmlString) =>
          { status := status, body := htmlString, loggedRenderFailure := false }
      | .ok none =>
          { status := status, body := fallbackHtml error, loggedRenderFailure := false }
      | .error _ =>
          { status := status, body := fallbackHtml error, loggedRenderFailure := true }
  | some (.strT s) => { status := status, body := s, loggedRenderFailure := false }
  | none => { status := status, body := fallbackHtml error, loggedRenderFailure := false }

/-! ## contextResponse.ts : parseParams -/

/-- Options accepted by parseParams: `selects` and `requires` field lists
(`none` models the option being absent). -/
structure ParseOptions where
  selects : Option (List String)
  requires : Option (List String)
deriving DecidableEq, Repr

/-- The required-field test of parseParams:
`value === undefined || value === null || value === ''`. -/
def isMissingValue (v : Option JSValue) : Bool :=
  match v with
  | none => true
  | some .null => true
  | some (.str s) => s = ""
  | some _ => false

/-- The `for (const field of options.requires)` loop: throw a 400 StatusError
at the first missing required field. -/
def checkRequires (requires : List String) (params : Params) :
    Except StatusError Unit :=
  match requires with
  | [] => .ok ()
  | field :: rest =>
      if isMissingValue (lookupField params field) then
        .error (StatusError.make
          (.inl ("Required field '" ++ field ++ "' is missing or empty")) 400)
      else
        checkRequires rest params

/-- The `for (const field of options.selects)` loop building
`selectedParams` from the fields that are present. -/
def selectFields (selects : List String) (params : Params) : Params :=
  selects.foldl (fun acc field =>
    match lookupField params field with
    | some v => acc ++ [(field, v)]
    | none => acc) []

/-- The per-request body-parsing environment of parseParams: the query map,
the content-type header (already defaulted to `""` as in
`c.req.header("content-type") || ""`), and the outcomes of `c.req.json()`
and `c.req.formData()` (`Except Unit` models a parse throw). -/
structure RequestData where
  query : Params
  contentType : String
  jsonBody : Except Unit Params
  formBody : Except Unit Params

/-- The first half of parseParams: start from the query map and merge a
JSON or form body over it according to the content-type, throwing a 400
StatusError on a body-parse failure. -/
def bodyStage (req : RequestData) : Except StatusError Params :=
  let params := req.query
  if strIncludes req.contentType "application/json" then
    match req.jsonBody with
    | .ok jsonData => pure (mergeParams params jsonData)
    | .error _ =>
        .error (StatusError.make (.inl "Invalid JSON format in request body") 400)
  else if strIncludes req.contentType "application/x-www-form-urlencoded" ||
      strIncludes req.contentType "multipart/form-data" then
    match req.formBody with
    | .ok formObject => pure (mergeParams params formObject)
    | .error _ =>
        .error (StatusError.make (.inl "Invalid form data format") 400)
  else
    pure params

/-- Function `parseParams(c, options?)` of contextResponse.ts: the body stage, then
required-field validation, then selects projection when the list is
non-empty. -/
def parseParams (req : RequestData) (options : Option ParseOptions) :
    Except StatusError Params := do
  let params ← bodyStage req
  match options with
  | some opts => do
      (match opts.requires with
       | some reqList => checkRequires reqList params
       | none => pure ())
      match opts.selects with
      | some selList =>
          if selList.length > 0 then
            pure (selectFields selList params)
          else
            pure params
      | none => pure params
  | none => pure params

/-! ## createHook.ts : createRaceLoggerOnNocoDB -/

/-- The `xcToken` configuration field: a literal token string, or a zero-arg
token-producing function whose invocation either resolves to a string or
rejects (the function's behaviour is modelled by its result). -/
inductive XcToken where
  | str (s : String) : XcToken
  | fn : XcToken
deriving DecidableEq, Repr

/-- Type `CreateRaceProps`: the tracer configuration (timezone optional,
defaulted to "Asia/Seoul" on destructuring). -/
structure CreateRaceProps where
  xcToken : XcToken
  baseUrl : String
  tableId : String
  topic : String
  timezone : Option String
deriving DecidableEq, Repr

/-- Type `Partial<CreateRaceProps>`: the clone overrides, every field optional. -/
structure RacePropsOverrides where
  xcToken : Option XcToken
  baseUrl : Option String
  tableId : Option String
  topic : Option String
  timezone : Option String
deriving DecidableEq, Repr

/-- JS `a || b` for a string `a`: the empty string is falsy. -/
def jsOrString (a b : String) : String :=
  if a = "" then b else a

/-- JS `override || parent` for a possibly-undefined string override:
`undefined` and `""` both fall back to the parent value. -/
def jsOrStringOpt (override : Option String) (parent : String) : String :=
  match override with
  | none => parent
  | some s => jsOrString s parent

/-- JS truthiness of an `xcToken` value: only the empty string is falsy
(functions are always truthy). -/
def xcTokenFalsy : XcToken → Bool
  | .str s => s = ""
  | .fn => false

/-- JS `override || parent` for a possibly-undefined `xcToken` override. -/
def jsOrXcTokenOpt (override : Option XcToken) (parent : XcToken) : XcToken :=
  match override with
  | none => parent
  | some t => if xcTokenFalsy t then parent else t

/-- The closure state captured by `createRaceLoggerOnNocoDB`:
`nocoDbHostUrl`, `nocoDbTableId`, `recordTopic = topic || "undefined"`,
`logTimezone` (destructuring default "Asia/Seoul"). -/
structure ResolvedRaceConfig where
  xcToken : XcToken
  nocoDbHostUrl : String
  nocoDbTableId : String
  recordTopic : String
  logTimezone : String
deriving DecidableEq, Repr

/-- The constant bindings at the top of `createRaceLoggerOnNocoDB`. -/
def resolveRaceConfig (props : CreateRaceProps) : ResolvedRaceConfig :=
  { xcToken := props.xcToken
  , nocoDbHostUrl := props.baseUrl
  , nocoDbTableId := props.tableId
  , recordTopic := jsOrString props.topic "undefined"
  , logTimezone := props.timezone.getD "Asia/Seoul" }

/-- Method `raceLogger.clone(overrides)`: build a new `CreateRaceProps` with
`overrides.field || field` for every field and call
`createRaceLoggerOnNocoDB` on it. -/
def clone (props : CreateRaceProps) (overrides : RacePropsOverrides) :
    CreateRaceProps :=
  let timezone := props.timezone.getD "Asia/Seoul"
  { xcToken := jsOrXcTokenOpt overrides.xcToken props.xcToken
  , baseUrl := jsOrStringOpt overrides.baseUrl props.baseUrl
  , tableId := jsOrStringOpt overrides.tableId props.tableId
  , topic := jsOrStringOpt overrides.topic props.topic
  , timezone := some (jsOrStringOpt overrides.timezone timezone) }

/-- The mutable `RaceLog` record of one tracer invocation. -/
structure RaceLog where
  topic : String
  begin_at : Int
  detail : Params
  stdoutLines : List String
  stderrLines : List String

/-- The flat record `sendData` transmitted to NocoDB. -/
structure SendData where
  topic : String
  begin_at : String
  duration : Int
  detail : Params
  stdout : String
  stderr : String

/-- An error thrown inside the transmit step (`instanceof StatusError`
carries a status; other thrown values are modelled with `status = none`). -/
structure SendError where
  message : String
  status : Option Nat
deriving DecidableEq, Repr

/-- The POST request issued by the transmit step. -/
structure SendRequest where
  method : String
  urlBase : String
  urlPath : String
  contentType : String
  xcTokenHeader : String
  body : List SendData

/-- The non-deterministic environment of one transmit attempt: the outcome
of invoking a function-valued `xcToken`, and the outcome of `fetch`
(network failure, or a response status with its body text). -/
structure SendEnv where
  tokenFnResult : Except SendError String
  fetchResult : Except SendError (Nat × String)

/-- The observable outcome of `sendRaceLog`: it always returns `true`
(the `finally` clause), possibly issued a POST request, and logged a
diagnostic line when anything failed. -/
structure SendOutcome where
  returned : Bool
  request : Option SendRequest
  logged : Option (String × Nat)

/-- The joins `raceLog.stdout.join("\n")` / `raceLog.stderr.join("\n")`. -/
def joinLines (lines : List String) : String :=
  String.intercalate "\n" lines

/-- The expression `typeof xcToken === "string" ? xcToken : await xcToken()`. -/
def resolvedXcToken (tok : XcToken) (env : SendEnv) : Except SendError String :=
  match tok with
  | .str s => .ok s
  | .fn => env.tokenFnResult

/-- The `catch`/`finally` tail of `sendRaceLog`: log the error message and
status (500 for non-StatusError values) and return `true`. -/
def sendCaught (request : Option SendRequest) (e : SendError) : SendOutcome :=
  { returned := true
  , request := request
  , logged := some (s!"Error RaceLoggerOnNocoDB {e.message}", e.status.getD 500) }

/-- Function `sendRaceLog()` of createHook.ts: format the start time, build the flat
record, resolve the token, POST `[sendData]` to
`/api/v2/tables/{tableId}/records` on the configured host with the
`xc-token` header, treat any status other than 200/201 as a failure, catch
and log every failure, and always return `true`.  `fmt` stands for the
luxon `yyyy-MM-dd HH:mm:ss` formatter applied to the zone and the start
millis; `now` is `Date.now()` at transmit time. -/
def sendRaceLog (cfg : ResolvedRaceConfig) (log : RaceLog) (now : Int)
    (fmt : String → Int → String) (env : SendEnv) : SendOutcome :=
  let formattedTime := fmt cfg.logTimezone log.begin_at
  let sendData : SendData :=
    { topic := log.topic
    , begin_at := formattedTime
    , duration := now - log.begin_at
    , detail := log.detail
    , stdout := joinLines log.stdoutLines
    , stderr := joinLines log.stderrLines }
  match resolvedXcToken cfg.xcToken env with
  | .error e => sendCaught none e
  | .ok headerXcToken =>
      if headerXcToken = "" then
        sendCaught none ⟨"Invalid xcToken for NocoDB", some 400⟩
      else
        let request : SendRequest :=
          { method := "POST"
          , urlBase := cfg.nocoDbHostUrl
          , urlPath := "/api/v2/tables/" ++ cfg.nocoDbTableId ++ "/records"
          , contentType := "application/json"
          , xcTokenHeader := headerXcToken
          , body := [sendData] }
        match env.fetchResult with
        | .error e => sendCaught (some request) e
        | .ok (status, responseText) =>
            if status ≠ 200 ∧ status ≠ 201 then
              sendCaught (some request)
                ⟨s!"NocoDB logging failed with status {responseText} {status}", some status⟩
            else
              { returned := true, request := some request, logged := none }

/-- A thrown JS error as seen by the tracer's catch block. -/
structure JsError where
  message : String
  stack : Option String
deriving DecidableEq, Repr

/-- The call `utils.stderr(error.stack)` runs only when the stack is present. -/
def stackLines (e : JsError) : List String :=
  match e.stack with
  | some s => [s]
  | none => []

/-- What one wrapped operation did with the utility surface before
finishing: the stdout/stderr lines it pushed, the detail it assigned, and
whether it returned a value or threw. -/
structure RaceRun (α : Type) where
  stdoutLines : List String
  stderrLines : List String
  detail : Params
  outcome : Except JsError α

/-- The tracer body returned by `createRaceLoggerOnNocoDB`: run the
operation against a fresh `RaceLog`, on success transmit and return the
result, on a throw append the error message (and stack, if present) to
stderr, transmit, and rethrow the same error. -/
def raceLogger {α : Type} (cfg : ResolvedRaceConfig) (beginAt : Int)
    (run : RaceRun α) (now : Int) (fmt : String → Int → String)
    (env : SendEnv) : Except JsError α × RaceLog × SendOutcome :=
  let logAfter : RaceLog :=
    { topic := cfg.recordTopic
    , begin_at := beginAt
    , detail := run.detail
    , stdoutLines := run.stdoutLines
    , stderrLines := run.stderrLines }
  match run.outcome with
  | .ok v => (.ok v, logAfter, sendRaceLog cfg logAfter now fmt env)
  | .error e =>
      let logErr : RaceLog :=
        { logAfter with stderrLines := logAfter.stderrLines ++ [e.message] ++ stackLines e }
      (.error e, logErr, sendRaceLog cfg logErr now fmt env)

/-! ## Helper lemmas -/

theorem lookupField_eq (params : Params) (k : String) :
    lookupField params k = (params.find? (fun p => p.1 = k)).map (fun p => p.2) := by
  unfold lookupField
  cases params.find? (fun p => p.1 = k) <;> rfl

theorem find?_and_left_of_imp {α : Type} {l : List α} {q h' : α → Bool}
    (himp : ∀ a, q a = true → h' a = true) :
    l.find? (fun a => h' a && q a) = l.find? q := by
  induction l with
  | nil => rfl
  | cons x xs ih =>
      by_cases hq : q x = true
      · have hh := himp x hq
        simp [List.find?, hq, hh]
      · simp only [Bool.not_eq_true] at hq
        simp [List.find?, hq, ih]

theorem decide_and_eq_band {α : Type} (h' q : α → Bool) :
    (fun a => decide (h' a = true ∧ q a = true)) = (fun a => h' a && q a) := by
  funext a
  cases h' a <;> cases q a <;> simp

/-- Lookup in a JS spread merge: the overriding map's binding wins, the base
map's binding is the fallback. -/
theorem lookupField_mergeParams (base over : Params) (k : String) :
    lookupField (mergeParams base over) k =
      (lookupField over k).orElse (fun _ => lookupField base k) := by
  have hg : ∀ p : String × JSValue,
      ((match lookupField over p.1 with
        | some v => (p.1, v)
        | none => p) : String × JSValue).1 = p.1 := by
    intro p
    cases lookupField over p.1 <;> rfl
  unfold mergeParams
  rw [lookupField_eq, List.find?_append, List.find?_map, List.find?_filter]
  have hcomp : ((fun p : String × JSValue => decide (p.1 = k)) ∘
      (fun p : String × JSValue =>
        match lookupField over p.1 with
        | some v => (p.1, v)
        | none => p)) = (fun p : String × JSValue => decide (p.1 = k)) := by
    funext p
    simp [Function.comp, hg p]
  rw [hcomp]
  cases ho : over.find? (fun p => p.1 = k) with
  | some pov =>
      have hk : pov.1 = k := by
        have := List.find?_some ho
        simpa using this
      have hover : lookupField over k = some pov.2 := by
        rw [lookupField_eq, ho]; rfl
      cases hb : base.find? (fun p => p.1 = k) with
      | some pb =>
          have hkb : pb.1 = k := by
            have := List.find?_some hb
            simpa using this
          simp only [hb, Option.map_some']
          have hgpb : (match lookupField over pb.1 with
              | some v => (pb.1, v)
              | none => pb) = (pb.1, pov.2) := by
            rw [hkb, hover]
          rw [hgpb]
          simp [hover, Option.orElse]
      | none =>
          simp only [hb, Option.map_none']
          have hfind : over.find? (fun a =>
              (lookupField base a.1).isNone && decide (a.1 = k))
              = over.find? (fun p => decide (p.1 = k)) := by
            apply find?_and_left_of_imp
            intro a ha
            have hak : a.1 = k := by simpa using ha
            rw [hak, lookupField_eq, hb]
            rfl
          rw [decide_and_eq_band, hfind, ho]
          simp [hover, Option.orElse]
  | none =>
      have hover : lookupField over k = none := by
        rw [lookupField_eq, ho]; rfl
      have hnone : over.find? (fun a =>
          (lookupField base a.1).isNone && decide (a.1 = k)) = none := by
        rw [List.find?_eq_none] at ho ⊢
        intro x hx
        simp only [Bool.and_eq_true, decide_eq_true_eq, not_and]
        intro _ hxk
        exact absurd hxk (by simpa using ho x hx)
      rw [decide_and_eq_band, hnone]
      cases hb : base.find? (fun p => p.1 = k) with
      | some pb =>
          have hkb : pb.1 = k := by
            have := List.find?_some hb
            simpa using this
          simp only [hb, Option.map_some']
          have hgpb : (match lookupField over pb.1 with
              | some v => (pb.1, v)
              | none => pb) = pb := by
            rw [hkb, hover]
          rw [hgpb]
          simp [hover, lookupField_eq, hb, Option.orElse]
      | none =>
          simp [hb, hover, lookupField_eq, Option.orElse]

/-- The `requires` loop fails exactly at the first field of the list whose
value is missing. -/
theorem checkRequires_eq_find (requires : List String) (params : Params) :
    checkRequires requires params =
      match requires.find? (fun field => isMissingValue (lookupField params field)) with
      | some field =>
          .error (StatusError.make
            (.inl ("Required field '" ++ field ++ "' is missing or empty")) 400)
      | none => .ok () := by
  induction requires with
  | nil => rfl
  | cons field rest ih =>
      by_cases hm : isMissingValue (lookupField params field) = true
      · simp [checkRequires, List.find?, hm]
      · simp only [Bool.not_eq_true] at hm
        simp [checkRequires, List.find?, hm, ih]

theorem selectFields_aux (selects : List String) (params : Params) (acc : Params) :
    selects.foldl (fun acc field =>
      match lookupField params field with
      | some v => acc ++ [(field, v)]
      | none => acc) acc =
    acc ++ selects.filterMap
      (fun field => (lookupField params field).map (fun v => (field, v))) := by
  induction selects generalizing acc with
  | nil => simp
  | cons field rest ih =>
      cases hv : lookupField params field with
      | some v =>
          simp [List.foldl, List.filterMap, hv, ih]
      | none =>
          simp [List.foldl, List.filterMap, hv, ih]

/-- The `selects` loop is a projection onto the listed fields that are
present, in the order of the selects list. -/
theorem selectFields_eq_filterMap (selects : List String) (params : Params) :
    selectFields selects params =
      selects.filterMap
        (fun field => (lookupField params field).map (fun v => (field, v))) := by
  unfold selectFields
  rw [selectFields_aux]
  simp

/-! ## Claim theorems -/

/-- C10: when StatusError is constructed with a numeric first argument, any
explicitly supplied second status argument is ignored — the status becomes
the first argument and the message comes from the code-to-text table (for
example `new StatusError(404, 401)` has status 404 and message "Not Found");
constructed with only a string message, the status defaults to 500. -/
theorem statusError_numeric_first_argument :
    (∀ n s, StatusError.make (.inr n) s = { message := statusText n, status := n }) ∧
    StatusError.make (.inr 404) 401 = { message := "Not Found", status := 404 } ∧
    (∀ m, StatusError.makeDefault (.inl m) = { message := m, status := 500 }) :=
  ⟨fun _ _ => rfl, by decide, fun _ => rfl⟩

/-- C9: a clone override whose value is falsy (`topic: ""` or
`xcToken: ""`) is not applied — the `||`-based inheritance silently keeps
the parent's value — and a tracer whose topic is the empty string records
the literal topic string "undefined". -/
theorem clone_falsy_override_ignored :
    (∀ props : CreateRaceProps,
        (clone props { xcToken := none, baseUrl := none, tableId := none
                     , topic := some "", timezone := none }).topic = props.topic) ∧
    (∀ props : CreateRaceProps,
        (clone props { xcToken := some (.str ""), baseUrl := none, tableId := none
                     , topic := none, timezone := none }).xcToken = props.xcToken) ∧
    (∀ props : CreateRaceProps,
        (resolveRaceConfig { props with topic := "" }).recordTopic = "undefined") ∧
    (∀ (props : CreateRaceProps) (beginAt : Int) (run : RaceRun Unit) (now : Int)
        (fmt : String → Int → String) (env : SendEnv),
        ((raceLogger (resolveRaceConfig { props with topic := "" })
            beginAt run now fmt env).2.1).topic = "undefined") := by
  refine ⟨fun props => rfl, fun props => rfl, fun props => rfl, ?_⟩
  intro props beginAt run now fmt env
  cases hr : run.outcome <;> simp [raceLogger, hr, resolveRaceConfig, jsOrString]

/-- C5: responseJsonError resolves the HTTP status from the value's `status`
property when present (on a truthy object) and defaults to 500 otherwise;
the default body is `{status, message}`; a supplied transform receives that
default body, its output is sent verbatim, and the HTTP status is unaffected
by the transform. -/
theorem responseJsonError_status_and_transform :
    (∀ e t, (responseJsonError e t).status = resolveStatus e) ∧
    (∀ s m, resolveStatus { isObject := true, status := some s, message := m } = s) ∧
    (∀ b m, resolveStatus { isObject := b, status := none, message := m } = 500) ∧
    (∀ e, (responseJsonError e none).body =
        jsValueOfDefaultJson { status := resolveStatus e, message := e.message }) ∧
    (∀ e f, (responseJsonError e (some f)).body =
        f { status := resolveStatus e, message := e.message }) := by
  refine ⟨fun e t => ?_, fun s m => rfl, fun b m => ?_, fun e => rfl, fun e f => rfl⟩
  · cases t <;> rfl
  · cases b <;> rfl

/-- C8: when a caller-supplied template component throws, responseHtmlError
catches the exception, logs the render failure, and responds with the fixed
fallback template carrying the original error's resolved status; the same
fixed fallback is used when no template is supplied. -/
theorem responseHtmlError_render_fallback :
    (∀ e render err, render e = .error err →
        responseHtmlError e (some (.fc render)) =
          { status := resolveStatus e, body := fallbackHtml e
          , loggedRenderFailure := true }) ∧
    (∀ e, responseHtmlError e none =
        { status := resolveStatus e, body := fallbackHtml e
        , loggedRenderFailure := false }) := by
  refine ⟨fun e render err h => ?_, fun e => rfl⟩
  simp [responseHtmlError, h]

/-- Witness for C8: a 404 error with a component that throws yields the
fallback body with status 404 and a logged render failure. -/
theorem responseHtmlError_render_fallback_witness :
    responseHtmlError { isObject := true, status := some 404, message := some "Baz Error" }
        (some (.fc (fun _ => .error { message := "Component render error" }))) =
      { status := 404, body := "<h1>Error</h1><p>Baz Error</p>"
      , loggedRenderFailure := true } :=
  responseHtmlError_render_fallback.1
    { isObject := true, status := some 404, message := some "Baz Error" }
    (fun _ => .error { message := "Component render error" })
    { message := "Component render error" } rfl

/-- C1 counterexample: a failure raised in step 1 of the gate (missing
Authorization header) is rendered with its own status 403, not with an
Internal Server Error 500 — so not every failure raised in steps 1-4 is
rendered as 500 and the caller does see an original inner status code. -/
theorem gate_header_failure_not_500_counterexample :
    createNextHandlerIfAuthorization (fun _ => .retTrue) none =
      GateOutcome.respond 403 "Authorization required" ∧
    ¬ createNextHandlerIfAuthorization (fun _ => .retTrue) none =
      GateOutcome.respond 500 "Internal Server Error" := by
  refine ⟨by decide, by decide⟩

/-- C1 (amended): only failures raised in the validator step (the validator
returning false, returning a StatusError, throwing, or returning an
unexpected value) are caught and rendered uniformly as an Internal Server
Error 500, so the caller never sees the validator's inner status code;
failures of the header checks are rendered with their own status codes
(missing or empty header 403, non-Bearer prefix 401). -/
theorem gate_fail_closed_validator_step_only :
    (∀ (validate : String → ValidatorResult) (a : String),
        strStartsWith a "Bearer " = true →
        validate (strSubstringFrom a 7) ≠ ValidatorResult.retTrue →
        createNextHandlerIfAuthorization validate (some a) =
          GateOutcome.respond 500 "Internal Server Error") ∧
    (∀ (validate : String → ValidatorResult) (auth : Option String),
        headerFalsy auth = true →
        createNextHandlerIfAuthorization validate auth =
          GateOutcome.respond 403 "Authorization required") ∧
    (∀ (validate : String → ValidatorResult) (a : String),
        headerFalsy (some a) = false →
        strStartsWith a "Bearer " = false →
        createNextHandlerIfAuthorization validate (some a) =
          GateOutcome.respond 401 "Authorization format invaild") := by
  refine ⟨?_, ?_, ?_⟩
  · intro validate a hpfx hneq
    have hfalsy : headerFalsy (some a) = false := by
      unfold headerFalsy
      by_cases h : a = ""
      · subst h
        exact absurd hpfx (by decide)
      · simp [h]
    unfold createNextHandlerIfAuthorization handlerBody
    rw [hfalsy]
    simp only [Bool.false_eq_true, if_false, Option.getD_some, hpfx, if_true]
    unfold validateStep
    cases hv : validate (strSubstringFrom a 7) <;> simp [hv] at hneq ⊢ <;> rfl
  · intro validate auth hfalsy
    unfold createNextHandlerIfAuthorization handlerBody
    rw [hfalsy]
    rfl
  · intro validate a hfalsy hpfx
    unfold createNextHandlerIfAuthorization handlerBody
    rw [hfalsy]
    simp [hpfx, responseJsonErrorCtx]

/-- Witness for the amended C1: a validator that returns a 403 StatusError
is rendered as 500 (its 403 never reaches the caller), a missing header
as 403, and a Basic header as 401. -/
theorem gate_fail_closed_validator_step_only_witness :
    createNextHandlerIfAuthorization
        (fun _ => .retError { message := "Forbidden", status := 403 }) (some "Bearer tkn") =
      GateOutcome.respond 500 "Internal Server Error" ∧
    createNextHandlerIfAuthorization
        (fun _ => .retError { message := "Forbidden", status := 403 }) none =
      GateOutcome.respond 403 "Authorization required" ∧
    createNextHandlerIfAuthorization
        (fun _ => .retError { message := "Forbidden", status := 403 }) (some "Basic x") =
      GateOutcome.respond 401 "Authorization format invaild" :=
  ⟨gate_fail_closed_validator_step_only.1 _ "Bearer tkn" (by decide) (by decide),
   gate_fail_closed_validator_step_only.2.1 _ none rfl,
   gate_fail_closed_validator_step_only.2.2 _ "Basic x" (by decide) (by decide)⟩

/-- C4 counterexample: for a non-Bearer header the gate's message is the
source's literal "Authorization format invaild", not the spelling
"Authorization format invalid" stated in the claim. -/
theorem gate_message_spelling_counterexample :
    createNextHandlerIfAuthorization (fun _ => .retTrue) (some "Basic dXNlcjpwYXNz") =
      GateOutcome.respond 401 "Authorization format invaild" ∧
    ¬ createNextHandlerIfAuthorization (fun _ => .retTrue) (some "Basic dXNlcjpwYXNz") =
      GateOutcome.respond 401 "Authorization format invalid" := by
  refine ⟨by decide, by decide⟩

/-- C4 (amended): at the gate's own boundary, a missing or empty
Authorization header gives 403 "Authorization required"; a header not
prefixed with "Bearer " gives 401 with the code's message "Authorization
format invaild"; the validator returning false, returning a StatusError, or
throwing gives 500; and the validator returning true invokes the downstream
continuation with no error response. -/
theorem gate_boundary_outcomes :
    (∀ validate : String → ValidatorResult,
        createNextHandlerIfAuthorization validate none =
          GateOutcome.respond 403 "Authorization required") ∧
    (∀ validate : String → ValidatorResult,
        createNextHandlerIfAuthorization validate (some "") =
          GateOutcome.respond 403 "Authorization required") ∧
    (∀ (validate : String → ValidatorResult) (a : String), a ≠ "" →
        strStartsWith a "Bearer " = false →
        createNextHandlerIfAuthorization validate (some a) =
          GateOutcome.respond 401 "Authorization format invaild") ∧
    (∀ (validate : String → ValidatorResult) (a : String),
        strStartsWith a "Bearer " = true →
        (validate (strSubstringFrom a 7) = ValidatorResult.retFalse ∨
          (∃ e, validate (strSubstringFrom a 7) = ValidatorResult.retError e) ∨
          (∃ e, validate (strSubstringFrom a 7) = ValidatorResult.throws e)) →
        createNextHandlerIfAuthorization validate (some a) =
          GateOutcome.respond 500 "Internal Server Error") ∧
    (∀ (validate : String → ValidatorResult) (a : String),
        strStartsWith a "Bearer " = true →
        validate (strSubstringFrom a 7) = ValidatorResult.retTrue →
        createNextHandlerIfAuthorization validate (some a) = GateOutcome.callNext) := by
  have hbearer : ∀ a : String, strStartsWith a "Bearer " = true →
      headerFalsy (some a) = false := by
    intro a hpfx
    unfold headerFalsy
    by_cases h : a = ""
    · subst h
      exact absurd hpfx (by decide)
    · simp [h]
  refine ⟨fun validate => rfl, fun validate => rfl, ?_, ?_, ?_⟩
  · intro validate a ha hpfx
    unfold createNextHandlerIfAuthorization handlerBody
    have hfalsy : headerFalsy (some a) = false := by
      unfold headerFalsy; simp [ha]
    rw [hfalsy]
    simp [hpfx, responseJsonErrorCtx]
  · intro validate a hpfx hv
    unfold createNextHandlerIfAuthorization handlerBody
    rw [hbearer a hpfx]
    simp only [Bool.false_eq_true, if_false, Option.getD_some, hpfx, if_true]
    unfold validateStep
    rcases hv with hv | ⟨e, hv⟩ | ⟨e, hv⟩ <;> simp [hv] <;> rfl
  · intro validate a hpfx hv
    unfold createNextHandlerIfAuthorization handlerBody
    rw [hbearer a hpfx]
    simp only [Bool.false_eq_true, if_false, Option.getD_some, hpfx, if_true]
    unfold validateStep
    simp [hv]

/-- Witness for the amended C4: the concrete outcomes for a false-returning
validator, a throwing validator, and a true-returning validator. -/
theorem gate_boundary_outcomes_witness :
    createNextHandlerIfAuthorization (fun _ => .retFalse) (some "Bearer t") =
      GateOutcome.respond 500 "Internal Server Error" ∧
    createNextHandlerIfAuthorization
        (fun _ => .throws { message := "boom", status := 401 }) (some "Bearer t") =
      GateOutcome.respond 500 "Internal Server Error" ∧
    createNextHandlerIfAuthorization (fun _ => .retTrue) (some "Bearer t") =
      GateOutcome.callNext ∧
    createNextHandlerIfAuthorization (fun _ => .retTrue) (some "Basic y") =
      GateOutcome.respond 401 "Authorization format invaild" :=
  ⟨gate_boundary_outcomes.2.2.2.1 _ "Bearer t" (by decide) (Or.inl rfl),
   gate_boundary_outcomes.2.2.2.1 _ "Bearer t" (by decide)
     (Or.inr (Or.inr ⟨{ message := "boom", status := 401 }, rfl⟩)),
   gate_boundary_outcomes.2.2.2.2 _ "Bearer t" (by decide) rfl,
   gate_boundary_outcomes.2.2.1 _ "Basic y" (by decide) (by decide)⟩

theorem parseParams_none (req : RequestData) : parseParams req none = bodyStage req := by
  unfold parseParams
  cases h : bodyStage req <;> simp [h]

/-- C6: parseParams starts from the query map; with a content-type
containing "application/json" it merges the parsed JSON body over the query
map (body keys winning on conflict) and throws a 400 StatusError "Invalid
JSON format in request body" on a parse failure; form bodies fail with 400
"Invalid form data format"; any other or missing content-type returns the
query map alone. -/
theorem parseParams_content_type_merge :
    (∀ (req : RequestData) (j : Params),
        strIncludes req.contentType "application/json" = true →
        req.jsonBody = .ok j →
        parseParams req none = .ok (mergeParams req.query j)) ∧
    (∀ req : RequestData,
        strIncludes req.contentType "application/json" = true →
        req.jsonBody = .error () →
        parseParams req none =
          .error { message := "Invalid JSON format in request body", status := 400 }) ∧
    (∀ req : RequestData,
        strIncludes req.contentType "application/json" = false →
        (strIncludes req.contentType "application/x-www-form-urlencoded" = true ∨
          strIncludes req.contentType "multipart/form-data" = true) →
        req.formBody = .error () →
        parseParams req none =
          .error { message := "Invalid form data format", status := 400 }) ∧
    (∀ req : RequestData,
        strIncludes req.contentType "application/json" = false →
        strIncludes req.contentType "application/x-www-form-urlencoded" = false →
        strIncludes req.contentType "multipart/form-data" = false →
        parseParams req none = .ok req.query) ∧
    (∀ (base over : Params) (k : String),
        lookupField (mergeParams base over) k =
          (lookupField over k).orElse (fun _ => lookupField base k)) := by
  refine ⟨?_, ?_, ?_, ?_, lookupField_mergeParams⟩
  · intro req j hct hjson
    rw [parseParams_none]
    unfold bodyStage
    simp [hct, hjson]
    rfl
  · intro req hct hjson
    rw [parseParams_none]
    unfold bodyStage
    simp [hct, hjson, StatusError.make]
  · intro req hct hform hfb
    rw [parseParams_none]
    unfold bodyStage
    rcases hform with h | h <;> simp [hct, h, hfb, StatusError.make]
  · intro req h1 h2 h3
    rw [parseParams_none]
    unfold bodyStage
    simp [h1, h2, h3]
    rfl

/-- Witness for C6: JSON body `{user: "Alice"}` merged over query
`{source: "web"}`, a failing JSON parse, and a text/plain request. -/
theorem parseParams_content_type_merge_witness :
    parseParams { query := [("source", .str "web")], contentType := "application/json"
                , jsonBody := .ok [("user", .str "Alice")], formBody := .error () } none =
      .ok [("source", .str "web"), ("user", .str "Alice")] ∧
    parseParams { query := [], contentType := "application/json"
                , jsonBody := .error (), formBody := .error () } none =
      .error { message := "Invalid JSON format in request body", status := 400 } ∧
    parseParams { query := [("name", .str "John")], contentType := "text/plain"
                , jsonBody := .error (), formBody := .error () } none =
      .ok [("name", .str "John")] :=
  ⟨(parseParams_content_type_merge.1 _ [("user", .str "Alice")] (by decide) rfl).trans rfl,
   parseParams_content_type_merge.2.1 _ (by decide) rfl,
   parseParams_content_type_merge.2.2.2.1 _ (by decide) (by decide) (by decide)⟩

theorem parseParams_req_sel (req : RequestData) (p : Params)
    (selects : Option (List String)) (requires : List String)
    (hbody : bodyStage req = .ok p) :
    parseParams req (some { selects := selects, requires := some requires }) =
      checkRequires requires p >>= fun _ =>
        (match selects with
         | some selList =>
             if selList.length > 0 then pure (selectFields selList p) else pure p
         | none => pure p) := by
  unfold parseParams
  rw [hbody]
  rfl

/-- C7: a required field that is absent, null or the empty string makes
parseParams throw 400 "Required field '<name>' is missing or empty" at the
first missing field of the requires list, before and regardless of any
selects projection; with no missing required field, a non-empty selects
list projects the result onto the listed fields that are present, and an
empty selects list returns everything. -/
theorem parseParams_requires_then_selects :
    (∀ (req : RequestData) (p : Params) (selects : Option (List String))
        (requires : List String) (f : String),
        bodyStage req = .ok p →
        requires.find? (fun field => isMissingValue (lookupField p field)) = some f →
        parseParams req (some { selects := selects, requires := some requires }) =
          .error { message := "Required field '" ++ f ++ "' is missing or empty"
                 , status := 400 }) ∧
    (∀ (req : RequestData) (p : Params) (selList : List String)
        (requires : List String),
        bodyStage req = .ok p →
        requires.find? (fun field => isMissingValue (lookupField p field)) = none →
        selList ≠ [] →
        parseParams req (some { selects := some selList, requires := some requires }) =
          .ok (selList.filterMap
            (fun field => (lookupField p field).map (fun v => (field, v))))) ∧
    (∀ (req : RequestData) (p : Params) (requires : List String),
        bodyStage req = .ok p →
        requires.find? (fun field => isMissingValue (lookupField p field)) = none →
        parseParams req (some { selects := some [], requires := some requires }) =
          .ok p) := by
  refine ⟨?_, ?_, ?_⟩
  · intro req p selects requires f hbody hfind
    rw [parseParams_req_sel req p selects requires hbody, checkRequires_eq_find, hfind]
    rfl
  · intro req p selList requires hbody hfind hne
    rw [parseParams_req_sel req p (some selList) requires hbody,
      checkRequires_eq_find, hfind]
    have hlen : selList.length > 0 := List.length_pos.mpr hne
    simp [hlen, selectFields_eq_filterMap]
  · intro req p requires hbody hfind
    rw [parseParams_req_sel req p (some []) requires hbody,
      checkRequires_eq_find, hfind]
    rfl

/-- Witness for C7: the missing 'email' field fails with the exact message
even though a selects list was supplied; with all required fields present
the selects projection applies; empty selects returns all fields. -/
theorem parseParams_requires_then_selects_witness :
    parseParams { query := [("name", .str "John"), ("age", .str "30")]
                , contentType := "", jsonBody := .error (), formBody := .error () }
        (some { selects := some ["name", "age"], requires := some ["name", "email"] }) =
      .error { message := "Required field 'email' is missing or empty", status := 400 } ∧
    parseParams { query := [("name", .str "John"), ("email", .str "john@example.com")
                          , ("age", .str "30"), ("phone", .str "123-456-7890")]
                , contentType := "", jsonBody := .error (), formBody := .error () }
        (some { selects := some ["name", "age"], requires := some ["name", "email"] }) =
      .ok [("name", .str "John"), ("age", .str "30")] ∧
    parseParams { query := [("name", .str "John"), ("email", .str "john@example.com")]
                , contentType := "", jsonBody := .error (), formBody := .error () }
        (some { selects := some [], requires := some ["name"] }) =
      .ok [("name", .str "John"), ("email", .str "john@example.com")] :=
  ⟨parseParams_requires_then_selects.1 _
      [("name", .str "John"), ("age", .str "30")]
      (some ["name", "age"]) ["name", "email"] "email" rfl rfl,
   (parseParams_requires_then_selects.2.1
      { query := [("name", .str "John"), ("email", .str "john@example.com")
                 , ("age", .str "30"), ("phone", .str "123-456-7890")]
      , contentType := "", jsonBody := .error (), formBody := .error () }
      [("name", .str "John"), ("email", .str "john@example.com")
      , ("age", .str "30"), ("phone", .str "123-456-7890")]
      ["name", "age"] ["name", "email"] rfl rfl (by decide)).trans rfl,
   parseParams_requires_then_selects.2.2 _
      [("name", .str "John"), ("email", .str "john@example.com")]
      ["name"] rfl rfl⟩

theorem sendRaceLog_returned (cfg : ResolvedRaceConfig) (log : RaceLog) (now : Int)
    (fmt : String → Int → String) (env : SendEnv) :
    (sendRaceLog cfg log now fmt env).returned = true := by
  unfold sendRaceLog sendCaught
  split
  · rfl
  · split
    · rfl
    · split
      · rfl
      · split <;> rfl

/-- C2: a tracer invocation resolves to exactly the wrapped operation's
value; a throwing operation has the same error rethrown after its message
(and stack, when present) is appended to the stderr line list; the
finalize-and-transmit step runs in both cases and every failure inside it
— a failing token resolution, a network error on fetch, or a response
status other than 200/201 — is caught (the step still returns), logged,
and swallowed: the transmit environment never affects the value returned
or the error rethrown. -/
theorem raceLogger_transparent_to_caller :
    (∀ (α : Type) (cfg : ResolvedRaceConfig) (beginAt : Int) (run : RaceRun α)
        (now : Int) (fmt : String → Int → String) (env : SendEnv) (v : α),
        run.outcome = .ok v →
        (raceLogger cfg beginAt run now fmt env).1 = .ok v) ∧
    (∀ (α : Type) (cfg : ResolvedRaceConfig) (beginAt : Int) (run : RaceRun α)
        (now : Int) (fmt : String → Int → String) (env : SendEnv) (e : JsError),
        run.outcome = .error e →
        (raceLogger cfg beginAt run now fmt env).1 = .error e ∧
        ((raceLogger cfg beginAt run now fmt env).2.1).stderrLines =
          run.stderrLines ++ [e.message] ++ stackLines e) ∧
    (∀ (α : Type) (cfg : ResolvedRaceConfig) (beginAt : Int) (run : RaceRun α)
        (now : Int) (fmt : String → Int → String) (env : SendEnv),
        ((raceLogger cfg beginAt run now fmt env).2.2).returned = true) ∧
    (∀ (α : Type) (cfg : ResolvedRaceConfig) (beginAt : Int) (run : RaceRun α)
        (now : Int) (fmt : String → Int → String) (env env' : SendEnv),
        (raceLogger cfg beginAt run now fmt env).1 =
          (raceLogger cfg beginAt run now fmt env').1) ∧
    (∀ (cfg : ResolvedRaceConfig) (log : RaceLog) (now : Int)
        (fmt : String → Int → String) (env : SendEnv) (e : SendError),
        resolvedXcToken cfg.xcToken env = .error e →
        ((sendRaceLog cfg log now fmt env).logged).isSome = true) ∧
    (∀ (cfg : ResolvedRaceConfig) (log : RaceLog) (now : Int)
        (fmt : String → Int → String) (env : SendEnv) (e : SendError),
        env.fetchResult = .error e →
        ((sendRaceLog cfg log now fmt env).logged).isSome = true) ∧
    (∀ (cfg : ResolvedRaceConfig) (log : RaceLog) (now : Int)
        (fmt : String → Int → String) (env : SendEnv) (tok : String)
        (status : Nat) (text : String),
        resolvedXcToken cfg.xcToken env = .ok tok →
        env.fetchResult = .ok (status, text) →
        status ≠ 200 → status ≠ 201 →
        ((sendRaceLog cfg log now fmt env).logged).isSome = true) := by
  refine ⟨?_, ?_, ?_, ?_, ?_, ?_, ?_⟩
  · intro α cfg beginAt run now fmt env v h
    simp [raceLogger, h]
  · intro α cfg beginAt run now fmt env e h
    constructor <;> simp [raceLogger, h]
  · intro α cfg beginAt run now fmt env
    cases h : run.outcome <;> simp [raceLogger, h, sendRaceLog_returned]
  · intro α cfg beginAt run now fmt env env'
    cases h : run.outcome <;> simp [raceLogger, h]
  · intro cfg log now fmt env e htok
    unfold sendRaceLog
    rw [htok]
    rfl
  · intro cfg log now fmt env e hfetch
    unfold sendRaceLog
    split
    · rfl
    · split
      · rfl
      · rw [hfetch]
        rfl
  · intro cfg log now fmt env tok status text htok hfetch h200 h201
    unfold sendRaceLog
    rw [htok]
    by_cases h : tok = ""
    · simp [h, sendCaught]
    · simp only [h, if_false]
      rw [hfetch]
      simp [h200, h201, sendCaught]

/-- Witness for C2: an operation returning 42 resolves to 42 even though
the transmission fetch fails with a network error; a throwing operation is
rethrown and its message lands in the stderr record; and each transmit
failure class is logged: a failing token resolution, a network error on
fetch, and a 500 response. -/
theorem raceLogger_transparent_to_caller_witness :
    (raceLogger { xcToken := .str "tok", nocoDbHostUrl := "https://h"
                , nocoDbTableId := "T", recordTopic := "t", logTimezone := "Asia/Seoul" }
        0 { stdoutLines := [], stderrLines := [], detail := [], outcome := .ok (42 : Nat) }
        5 (fun _ _ => "time")
        { tokenFnResult := .ok "x"
        , fetchResult := .error { message := "network down", status := none } }).1 =
      .ok 42 ∧
    (raceLogger { xcToken := .str "tok", nocoDbHostUrl := "https://h"
                , nocoDbTableId := "T", recordTopic := "t", logTimezone := "Asia/Seoul" }
        0 { stdoutLines := [], stderrLines := []
          , detail := []
          , outcome := (.error { message := "Test error logging", stack := none } :
              Except JsError Nat) }
        5 (fun _ _ => "time")
        { tokenFnResult := .ok "x"
        , fetchResult := .error { message := "network down", status := none } }).1 =
      .error { message := "Test error logging", stack := none } ∧
    ((raceLogger { xcToken := .str "tok", nocoDbHostUrl := "https://h"
                 , nocoDbTableId := "T", recordTopic := "t", logTimezone := "Asia/Seoul" }
        0 { stdoutLines := [], stderrLines := []
          , detail := []
          , outcome := (.error { message := "Test error logging", stack := none } :
              Except JsError Nat) }
        5 (fun _ _ => "time")
        { tokenFnResult := .ok "x"
        , fetchResult := .error { message := "network down", status := none } }).2.1).stderrLines =
      ["Test error logging"] ∧
    ((sendRaceLog { xcToken := .fn, nocoDbHostUrl := "https://h"
                  , nocoDbTableId := "T", recordTopic := "t", logTimezone := "Asia/Seoul" }
        { topic := "t", begin_at := 0, detail := [], stdoutLines := [], stderrLines := [] }
        5 (fun _ _ => "time")
        { tokenFnResult := .error { message := "token service down", status := none }
        , fetchResult := .ok (200, "") }).logged).isSome = true ∧
    ((sendRaceLog { xcToken := .str "tok", nocoDbHostUrl := "https://h"
                  , nocoDbTableId := "T", recordTopic := "t", logTimezone := "Asia/Seoul" }
        { topic := "t", begin_at := 0, detail := [], stdoutLines := [], stderrLines := [] }
        5 (fun _ _ => "time")
        { tokenFnResult := .ok "x"
        , fetchResult := .error { message := "network down", status := none } }).logged).isSome =
      true ∧
    ((sendRaceLog { xcToken := .str "tok", nocoDbHostUrl := "https://h"
                  , nocoDbTableId := "T", recordTopic := "t", logTimezone := "Asia/Seoul" }
        { topic := "t", begin_at := 0, detail := [], stdoutLines := [], stderrLines := [] }
        5 (fun _ _ => "time")
        { tokenFnResult := .ok "x"
        , fetchResult := .ok (500, "oops") }).logged).isSome = true := by
  have h1 := raceLogger_transparent_to_caller.1 Nat
    { xcToken := .str "tok", nocoDbHostUrl := "https://h"
    , nocoDbTableId := "T", recordTopic := "t", logTimezone := "Asia/Seoul" }
    0 { stdoutLines := [], stderrLines := [], detail := [], outcome := .ok 42 }
    5 (fun _ _ => "time")
    { tokenFnResult := .ok "x"
    , fetchResult := .error { message := "network down", status := none } } 42 rfl
  have h2 := raceLogger_transparent_to_caller.2.1 Nat
    { xcToken := .str "tok", nocoDbHostUrl := "https://h"
    , nocoDbTableId := "T", recordTopic := "t", logTimezone := "Asia/Seoul" }
    0 { stdoutLines := [], stderrLines := []
      , detail := []
      , outcome := .error { message := "Test error logging", stack := none } }
    5 (fun _ _ => "time")
    { tokenFnResult := .ok "x"
    , fetchResult := .error { message := "network down", status := none } }
    { message := "Test error logging", stack := none } rfl
  have h5 := raceLogger_transparent_to_caller.2.2.2.2.1
    { xcToken := .fn, nocoDbHostUrl := "https://h"
    , nocoDbTableId := "T", recordTopic := "t", logTimezone := "Asia/Seoul" }
    { topic := "t", begin_at := 0, detail := [], stdoutLines := [], stderrLines := [] }
    5 (fun _ _ => "time")
    { tokenFnResult := .error { message := "token service down", status := none }
    , fetchResult := .ok (200, "") }
    { message := "token service down", status := none } rfl
  have h6 := raceLogger_transparent_to_caller.2.2.2.2.2.1
    { xcToken := .str "tok", nocoDbHostUrl := "https://h"
    , nocoDbTableId := "T", recordTopic := "t", logTimezone := "Asia/Seoul" }
    { topic := "t", begin_at := 0, detail := [], stdoutLines := [], stderrLines := [] }
    5 (fun _ _ => "time")
    { tokenFnResult := .ok "x"
    , fetchResult := .error { message := "network down", status := none } }
    { message := "network down", status := none } rfl
  have h7 := raceLogger_transparent_to_caller.2.2.2.2.2.2
    { xcToken := .str "tok", nocoDbHostUrl := "https://h"
    , nocoDbTableId := "T", recordTopic := "t", logTimezone := "Asia/Seoul" }
    { topic := "t", begin_at := 0, detail := [], stdoutLines := [], stderrLines := [] }
    5 (fun _ _ => "time")
    { tokenFnResult := .ok "x", fetchResult := .ok (500, "oops") }
    "tok" 500 "oops" rfl rfl (by decide) (by decide)
  exact ⟨h1, h2.1, h2.2.trans rfl, h5, h6, h7⟩

/-- C3 counterexample: a 202 response (a 2xx status) is treated as a
transmission failure and logged, so the transmission is not considered
successful for every 2xx status. -/
theorem sendRaceLog_only_200_201_counterexample :
    ((sendRaceLog { xcToken := .str "tok", nocoDbHostUrl := "https://h"
                  , nocoDbTableId := "T", recordTopic := "t", logTimezone := "Asia/Seoul" }
        { topic := "t", begin_at := 0, detail := [], stdoutLines := [], stderrLines := [] }
        5 (fun _ _ => "time")
        { tokenFnResult := .ok "x", fetchResult := .ok (202, "") }).logged ≠ none) ∧
    200 ≤ 202 ∧ 202 < 300 := by
  refine ⟨by decide, by decide, by decide⟩

/-- C3 (amended): the transmit step performs a POST to
{baseUrl}/api/v2/tables/{tableId}/records with the xc-token header and a
JSON body that is a single-element array containing the record
{topic, begin_at, duration, detail, stdout, stderr}; the transmission is
considered successful exactly when the response status is 200 or 201 — any
other status, including other 2xx statuses, is treated as a failure. -/
theorem sendRaceLog_post_shape_and_success :
    (∀ (cfg : ResolvedRaceConfig) (log : RaceLog) (now : Int)
        (fmt : String → Int → String) (env : SendEnv) (req : SendRequest),
        (sendRaceLog cfg log now fmt env).request = some req →
        req.method = "POST" ∧
        req.urlBase = cfg.nocoDbHostUrl ∧
        req.urlPath = "/api/v2/tables/" ++ cfg.nocoDbTableId ++ "/records" ∧
        req.contentType = "application/json" ∧
        resolvedXcToken cfg.xcToken env = .ok req.xcTokenHeader ∧
        req.body = [{ topic := log.topic
                    , begin_at := fmt cfg.logTimezone log.begin_at
                    , duration := now - log.begin_at
                    , detail := log.detail
                    , stdout := joinLines log.stdoutLines
                    , stderr := joinLines log.stderrLines }]) ∧
    (∀ (cfg : ResolvedRaceConfig) (log : RaceLog) (now : Int)
        (fmt : String → Int → String) (env : SendEnv) (tok : String)
        (status : Nat) (text : String),
        resolvedXcToken cfg.xcToken env = .ok tok → tok ≠ "" →
        env.fetchResult = .ok (status, text) →
        ((sendRaceLog cfg log now fmt env).logged = none ↔
          (status = 200 ∨ status = 201))) := by
  constructor
  · intro cfg log now fmt env req hreq
    unfold sendRaceLog at hreq
    split at hreq
    · simp [sendCaught] at hreq
    · rename_i tok htok
      split at hreq
      · simp [sendCaught] at hreq
      · split at hreq
        · simp [sendCaught] at hreq
          subst hreq
          refine ⟨rfl, rfl, rfl, rfl, ?_, rfl⟩
          rw [htok]
        · split at hreq
          · simp [sendCaught] at hreq
            subst hreq
            refine ⟨rfl, rfl, rfl, rfl, ?_, rfl⟩
            rw [htok]
          · simp at hreq
            subst hreq
            refine ⟨rfl, rfl, rfl, rfl, ?_, rfl⟩
            rw [htok]
  · intro cfg log now fmt env tok status text htok hne hfetch
    unfold sendRaceLog
    rw [htok]
    simp only [hne, if_false]
    rw [hfetch]
    by_cases h200 : status = 200
    · simp [h200, sendCaught]
    · by_cases h201 : status = 201
      · simp [h200, h201, sendCaught]
      · simp [h200, h201, sendCaught]

/-- Witness for the amended C3: a concrete transmission with a 200 response
logs nothing (success), and the concrete request issued carries the POST
method, the configured host, the records path for the configured table, the
resolved xc-token, and the single-record array body. -/
theorem sendRaceLog_post_shape_and_success_witness :
    ((sendRaceLog { xcToken := .str "tok", nocoDbHostUrl := "https://h"
                  , nocoDbTableId := "tbl123", recordTopic := "t", logTimezone := "Asia/Seoul" }
        { topic := "t", begin_at := 0, detail := []
        , stdoutLines := ["Starting"], stderrLines := [] }
        5 (fun _ _ => "2024-01-01 00:00:00")
        { tokenFnResult := .ok "x", fetchResult := .ok (200, "") }).logged = none) ∧
    ({ method := "POST", urlBase := "https://h"
     , urlPath := "/api/v2/tables/tbl123/records", contentType := "application/json"
     , xcTokenHeader := "tok"
     , body := [{ topic := "t", begin_at := "2024-01-01 00:00:00", duration := 5
                , detail := [], stdout := "Starting", stderr := "" }] } : SendRequest).method =
      "POST" ∧
    resolvedXcToken (.str "tok")
        { tokenFnResult := .ok "x", fetchResult := .ok (200, "") } =
      .ok "tok" := by
  have hsucc := (sendRaceLog_post_shape_and_success.2
    { xcToken := .str "tok", nocoDbHostUrl := "https://h"
    , nocoDbTableId := "tbl123", recordTopic := "t", logTimezone := "Asia/Seoul" }
    { topic := "t", begin_at := 0, detail := []
    , stdoutLines := ["Starting"], stderrLines := [] }
    5 (fun _ _ => "2024-01-01 00:00:00")
    { tokenFnResult := .ok "x", fetchResult := .ok (200, "") }
    "tok" 200 "" rfl (by decide) rfl).mpr (Or.inl rfl)
  have hshape := sendRaceLog_post_shape_and_success.1
    { xcToken := .str "tok", nocoDbHostUrl := "https://h"
    , nocoDbTableId := "tbl123", recordTopic := "t", logTimezone := "Asia/Seoul" }
    { topic := "t", begin_at := 0, detail := []
    , stdoutLines := ["Starting"], stderrLines := [] }
    5 (fun _ _ => "2024-01-01 00:00:00")
    { tokenFnResult := .ok "x", fetchResult := .ok (200, "") }
    { method := "POST", urlBase := "https://h"
    , urlPath := "/api/v2/tables/tbl123/records", contentType := "application/json"
    , xcTokenHeader := "tok"
    , body := [{ topic := "t", begin_at := "2024-01-01 00:00:00", duration := 5
               , detail := [], stdout := "Starting", stderr := "" }] } rfl
  exact ⟨hsucc, hshape.1, hshape.2.2.2.2.1⟩

end Honopang
